import Mathlib

/-!
A verification development for the tender-notice ingestion and decision
pipeline (MVP/backend/app): the input quality gate, the rule scoring
engine, the decision consistency corrections, the analysis pipeline
`analyze_notice`, and the store/crawler deduplication logic.

Conventions of the shallow embedding:
* Python strings are Lean `String`s; `in` (substring test) is `pyIn`,
  `str.lower()` is `pyLower` (ASCII case folding; all compared keywords
  are Chinese or ASCII, where the two coincide), `str.strip()` is
  `pyStrip`, `len` is `strLen` (both count unicode code points).
* Python dicts of strings are ordered association lists `DictS`;
  `d.get(k)` with a missing key yields `""`, which is falsy exactly
  like Python `None` in every use the code makes of it.
* Python floats are modelled as rationals; every numeral the code
  manipulates is exactly representable; `int(x)` is `pyInt`
  (truncation toward zero).
* The regular-expression searches are hand-compiled to total recursive
  matchers over `List Char` with Python `re.search` (leftmost-match,
  existential) semantics; `\d` and `\s` are modelled as ASCII digits
  and whitespace.
-/

set_option maxRecDepth 100000
set_option linter.unusedVariables false

/-- Contiguous-sublist search: does `sub` occur as a contiguous run inside
the second list (Python `sub in hay` on strings). -/
def listContains (sub : List Char) : List Char → Bool
  | [] => sub.isEmpty
  | c :: rest => sub.isPrefixOf (c :: rest) || listContains sub rest

/-- Python `needle in hay` for strings. -/
def pyIn (needle hay : String) : Bool := listContains needle.data hay.data

/-- Python `s.lower()` (ASCII fold; identity on the Chinese keyword text). -/
def pyLower (s : String) : String := String.mk (s.data.map Char.toLower)

/-- Python `s.upper()` (ASCII fold). -/
def pyUpper (s : String) : String := String.mk (s.data.map Char.toUpper)

/-- Python `s.strip()`: drop whitespace at both ends. -/
def pyStrip (s : String) : String :=
  String.mk (((s.data.dropWhile Char.isWhitespace).reverse.dropWhile Char.isWhitespace).reverse)

/-- Python `len(s)` (code points). -/
def strLen (s : String) : Nat := s.data.length

/-- A Python `dict[str, str]` as an ordered association list with unique keys. -/
abbrev DictS : Type := List (String × String)

/-- Python `d.get(k)` collapsed to a string: a missing key gives `""`,
which the source only ever tests for truthiness or splices into text,
exactly as it treats `None`. -/
def dGet (d : DictS) (k : String) : String :=
  match List.find? (fun p => p.fst == k) d with
  | some p => p.snd
  | none => ""

/-- Python truthiness of a string: non-empty. -/
def strTruthy (s : String) : Bool := !s.data.isEmpty

/-- ASCII decimal digit (models `\d` of the source's patterns). -/
def isDig (c : Char) : Bool := '0' ≤ c && c ≤ '9'

/-- Date separator class dash-or-slash class of the deadline pattern. -/
def isDateSep (c : Char) : Bool := c == '-' || c == '/'

/-- Tail of the deadline date pattern: `.*[前之前]`, i.e. a `前` or `之`
reachable without crossing a newline (`.` does not match `\n`). -/
def dotStarQian : List Char → Bool
  | [] => false
  | c :: rest =>
    if c == '前' || c == '之' then true
    else if c == '\n' then false
    else dotStarQian rest

/-- Matches `\d{1,2}.*[前之前]` at the head of the list.  Taking one digit
and letting `.*` absorb the rest is existentially complete because `.`
also matches a digit. -/
def dayThenQian : List Char → Bool
  | c :: rest => isDig c && dotStarQian rest
  | [] => false

/-- Matches (day-month digit groups with separators, then the qian tail) at the head of the list (both
widths of the month group are tried, as a backtracking engine would). -/
def monthTail : List Char → Bool
  | a :: b :: rest =>
    (isDig a && isDateSep b && dayThenQian rest)
      || (match rest with
          | c :: rest2 => isDig a && isDig b && isDateSep c && dayThenQian rest2
          | [] => false)
  | _ => false

/-- Matches the full date-deadline pattern (four year digits, separators, month and day groups, qian tail) at the head of the list. -/
def dateAt : List Char → Bool
  | a :: b :: c :: d :: s :: rest =>
    isDig a && isDig b && isDig c && isDig d && isDateSep s && monthTail rest
  | _ => false

/-- Python `re.search` of the date-deadline pattern: try every start. -/
def dateSearch : List Char → Bool
  | [] => false
  | c :: rest => dateAt (c :: rest) || dateSearch rest

/-- Whitespace-then-unit tail `\s*[吨tT]` of the tonnage patterns. -/
def wsUnit : List Char → Bool
  | [] => false
  | c :: rest =>
    if c == '吨' || c == 't' || c == 'T' then true
    else if c.isWhitespace then wsUnit rest
    else false

/-- After at least one fraction digit of a tonnage number: either the
`\s*[吨tT]` tail matches here, or consume a further fraction digit. -/
def tonFracRest : List Char → Bool
  | [] => false
  | c :: rest => wsUnit (c :: rest) || (isDig c && tonFracRest rest)

/-- After at least one integer digit of a tonnage number:
`(?:\.\d+)?\s*[吨tT]`, or a further integer digit.  All backtracking
alternatives of the greedy groups are covered existentially. -/
def tonAfterInt : List Char → Bool
  | [] => false
  | c :: rest =>
    wsUnit (c :: rest)
      || (c == '.' && (match rest with
          | d :: rest2 => isDig d && tonFracRest rest2
          | [] => false))
      || (isDig c && tonAfterInt rest)

/-- Python `re.search` of `\d+(?:\.\d+)?\s*[吨tT]` anywhere in the text.
The quality gate also tries the `约\s*…` variant, and `extract_tonnage`
additionally tries the `…吨位` and `钢结构.*?…` variants; each of those
patterns can only match where this one also matches, so a boolean search
needs only this pattern. -/
def tonnageSearch : List Char → Bool
  | [] => false
  | c :: rest => (isDig c && tonAfterInt rest) || tonnageSearch rest

/-! ## Input quality gate (input_quality_gate.py) -/

/-- The `quality_info` dictionary built by `check_input_quality`. -/
structure QualityInfo where
  text_length : Nat
  has_location : Bool
  has_qualification : Bool
  has_scope : Bool
  has_deadline : Bool
  has_tonnage : Bool
  key_fields_count : Nat
  reasons : List String
deriving DecidableEq, Repr

def location_keywords : List String :=
  ["地点", "位于", "建设地点", "项目地点", "工程地点", "施工地点"]

def qual_keywords : List String :=
  ["资质", "资格", "专业承包", "施工资质", "资质要求", "资格要求"]

def scope_keywords : List String :=
  ["项目内容", "建设内容", "工程内容", "范围", "工程范围", "施工范围"]

/-- The deadline check: three literal keywords, the literal `截止时间`,
and the date pattern, searched with `re.search` over the lowered text. -/
def deadlineHit (full_text : String) : Bool :=
  pyIn "投标截止" full_text || pyIn "开标时间" full_text || pyIn "报名截止" full_text
    || pyIn "截止时间" full_text || dateSearch full_text.data

/-- The count the source accumulates in `key_fields_count`: one
increment per keyword/pattern hit plus one per non-empty extracted
field, in the source's check order, so a single signal attested both
ways contributes two. -/
def gateKeyFieldsCount (raw_text title : String) (f : DictS) : Nat :=
  let full_text := pyLower (raw_text ++ " " ++ title)
  (if location_keywords.any (fun kw => pyIn kw full_text) then 1 else 0)
    + (if strTruthy (dGet f "location") then 1 else 0)
    + (if qual_keywords.any (fun kw => pyIn kw full_text) then 1 else 0)
    + (if strTruthy (dGet f "qualification") then 1 else 0)
    + (if scope_keywords.any (fun kw => pyIn kw full_text) then 1 else 0)
    + (if strTruthy (dGet f "scope") then 1 else 0)
    + (if deadlineHit full_text then 1 else 0)
    + (if strTruthy (dGet f "deadline") then 1 else 0)

/-- The quality gate `check_input_quality(raw_text, title, extracted_fields)`:
returns the `GOOD`/`INSUFFICIENT` status together with the info record.
Each keyword hit and each non-empty extracted field increments
`key_fields_count` separately, exactly as the source does. -/
def check_input_quality (raw_text : String) (title : String)
    (extracted_fields : DictS) : String × QualityInfo :=
  let q0 : QualityInfo :=
    { text_length := strLen raw_text, has_location := false,
      has_qualification := false, has_scope := false, has_deadline := false,
      has_tonnage := false, key_fields_count := 0, reasons := [] }
  if !strTruthy raw_text || strLen (pyStrip raw_text) < 300 then
    ("INSUFFICIENT",
      { q0 with reasons :=
          ["正文过短（" ++ toString (strLen raw_text) ++ " 字符，要求 ≥300 字符）"] })
  else
    let full_text := pyLower (raw_text ++ " " ++ title)
    let locKw := location_keywords.any (fun kw => pyIn kw full_text)
    let locField := strTruthy (dGet extracted_fields "location")
    let qualKw := qual_keywords.any (fun kw => pyIn kw full_text)
    let qualField := strTruthy (dGet extracted_fields "qualification")
    let scopeKw := scope_keywords.any (fun kw => pyIn kw full_text)
    let scopeField := strTruthy (dGet extracted_fields "scope")
    let dlKw := deadlineHit full_text
    let dlField := strTruthy (dGet extracted_fields "deadline")
    let tonKw := tonnageSearch full_text.data
    let tonField := strTruthy (dGet extracted_fields "tonnage")
    let count : Nat := gateKeyFieldsCount raw_text title extracted_fields
    let q1 : QualityInfo :=
      { q0 with
          has_location := locKw || locField,
          has_qualification := qualKw || qualField,
          has_scope := scopeKw || scopeField,
          has_deadline := dlKw || dlField,
          has_tonnage := tonKw || tonField,
          key_fields_count := count }
    if count < 2 then
      ("INSUFFICIENT",
        { q1 with reasons :=
            ["关键字段不足（仅 " ++ toString count ++ " 个，要求 ≥2 个：地点/资质/范围/截止时间）"] })
    else
      ("GOOD", { q1 with reasons := ["输入质量良好，可以进行分析"] })

/-! ## Rule scoring engine (score_rules.py) -/

/-- Python `int(x)` on a float/rational: truncation toward zero. -/
def pyInt (q : ℚ) : Int := Int.tdiv q.num q.den

/-- Value of an unsigned decimal digit run. -/
def digitsToNat (l : List Char) : Nat :=
  l.foldl (fun acc c => 10 * acc + (c.toNat - '0'.toNat)) 0

/-- Value of `intPart.fracPart` as a rational (Python `float(group(1))`). -/
def ratOfDigits (intPart fracPart : List Char) : ℚ :=
  (digitsToNat intPart : ℚ) + (digitsToNat fracPart : ℚ) / ((10 : ℚ) ^ fracPart.length)

/-- A tonnage-number match attempt anchored at the head of the list,
returning the numeric value of the captured group.  The integer and
fraction digit runs are maximal: a shorter run would leave a digit to be
matched by the following dot, whitespace or unit character, which is
impossible, so the greedy regex admits no other split. -/
def tonMatchAt (l : List Char) : Option ℚ :=
  let ds := l.takeWhile isDig
  let r1 := l.dropWhile isDig
  if ds.isEmpty then none
  else
    match r1 with
    | '.' :: r2 =>
      let ds2 := r2.takeWhile isDig
      let r3 := r2.dropWhile isDig
      if !ds2.isEmpty && wsUnit r3 then some (ratOfDigits ds ds2) else none
    | _ => if wsUnit r1 then some (ratOfDigits ds []) else none

/-- Leftmost tonnage match over the whole text. -/
def tonSeek : List Char → Option ℚ
  | [] => none
  | c :: rest =>
    match tonMatchAt (c :: rest) with
    | some v => some v
    | none => tonSeek rest

/-- The `extract_tonnage` of score_rules.py.  The source tries four
patterns in order and returns the first search's captured number; the
later three patterns (the `约` variant, `吨位`, `钢结构.*?`) can only
match where the first pattern also has a match, so the returned value is
always the leftmost match of the first pattern, or absent. -/
def extract_tonnage (text : String) : Option ℚ := tonSeek text.data

/-- The `scale_range` block of the company profile configuration. -/
structure ScaleRange where
  min : ℚ
  max : ℚ
  optimal_min : ℚ
  optimal_max : ℚ
  target : ℚ
deriving DecidableEq, Repr

/-- The company profile loaded by `load_company_profile()`.  The JSON
file itself (company_profile.json) is configuration; the scoring
functions are verified for every profile. -/
structure Profile where
  region_priority : List (String × Int)
  region_keywords : List (String × List String)
  scale_range : ScaleRange
  project_keywords : List (String × List String)
  preference_keywords : List String
  qualification_keywords : List (String × List String)

/-- Python `d.get(k, [])` over a keyword-table association list. -/
def lookupKws (l : List (String × List String)) (k : String) : List String :=
  match List.find? (fun p => p.fst == k) l with
  | some p => p.snd
  | none => []

/-- The `extract_region_score` of score_rules.py: highest-scoring region
whose keyword set has a hit in the text (first matching keyword breaks,
which is observationally the same as an any-test). -/
def extract_region_score (text : String) (p : Profile) : Int × String :=
  p.region_priority.foldl
    (fun acc rp =>
      if (lookupKws p.region_keywords rp.1).any (fun kw => pyIn kw text)
          && rp.2 > acc.1 then
        (rp.2, rp.1)
      else acc)
    (0, "UNKNOWN")

/-- The `score_scale` of score_rules.py. -/
def score_scale (tonnage : Option ℚ) (p : Profile) : Int × String :=
  match tonnage with
  | none => (0, "UNKNOWN")
  | some t =>
    let sr := p.scale_range
    if t < sr.min || t > sr.max then (0, "LOW")
    else if sr.optimal_min ≤ t && t ≤ sr.optimal_max then
      let distance := |t - sr.target|
      (max 0 (30 - pyInt (distance / 10)), "HIGH")
    else if sr.min ≤ t && t < sr.optimal_min then
      let score := pyInt (20 * ((t - sr.min) / (sr.optimal_min - sr.min)))
      (score, if score ≥ 10 then "MED" else "LOW")
    else
      let score := pyInt (20 * ((sr.max - t) / (sr.max - sr.optimal_max)))
      (score, if score ≥ 10 then "MED" else "LOW")

/-- The `score_scope` of score_rules.py: +15 once for the first matching
project-type keyword group, +10 once for a preference keyword hit. -/
def score_scope (text : String) (p : Profile) : Int × String :=
  let typeMatched := p.project_keywords.any (fun pr => pr.2.any (fun kw => pyIn kw text))
  let prefMatched := p.preference_keywords.any (fun kw => pyIn kw text)
  let score : Int := (if typeMatched then 15 else 0) + (if prefMatched then 10 else 0)
  if score ≥ 20 then (score, "HIGH")
  else if score ≥ 10 then (score, "MED")
  else (score, "LOW")

/-- The `score_qualification` of score_rules.py: +8 per qualification
category with a keyword hit. -/
def score_qualification (text : String) (p : Profile) : Int × String :=
  let matched := p.qualification_keywords.filter (fun pr => pr.2.any (fun kw => pyIn kw text))
  let score : Int := 8 * matched.length
  if score ≥ 20 then (score, "HIGH")
  else if score ≥ 8 then (score, "MED")
  else (score, "LOW")

/-- Rendering of a float inside the narrative reason strings.  The exact
spelling differs from CPython float repr in corner cases; no downstream
test inspects these characters (the only string tests performed on
reasons and risk flags are for fixed Chinese phrases that no number can
produce). -/
def pyFloatStr (q : ℚ) : String :=
  if q.den == 1 then toString q.num ++ ".0" else toString q

/-- Result triple of `rule_score`. -/
structure RuleScoreOut where
  score : Int
  reasons : List String
  risk_flags : List String
deriving DecidableEq, Repr

/-- Python truthiness of an optional float (`not tonnage`): absent or zero. -/
def floatFalsy : Option ℚ → Bool
  | none => true
  | some q => q == 0

/-- The merged text `rule_score` scores: the raw text, plus the truthy
extracted field values when the dict is truthy. -/
def ruleFullText (raw_text : String) (extracted_fields : DictS) : String :=
  if extracted_fields.isEmpty then raw_text
  else raw_text ++ " " ++
    String.intercalate " " ((extracted_fields.map Prod.snd).filter strTruthy)

/-- The tonnage `rule_score` settles on: the text extraction, retried on
the `tonnage`/`规模`/`重量` fields when the text yields nothing truthy. -/
def ruleTonnage (full_text : String) (extracted_fields : DictS) : Option ℚ :=
  let t0 := extract_tonnage full_text
  if !extracted_fields.isEmpty && floatFalsy t0 then
    let ts :=
      if strTruthy (dGet extracted_fields "tonnage") then dGet extracted_fields "tonnage"
      else if strTruthy (dGet extracted_fields "规模") then dGet extracted_fields "规模"
      else dGet extracted_fields "重量"
    if strTruthy ts then extract_tonnage ts else t0
  else t0

/-- The reasons list `rule_score` builds, one narrative entry per
positive factor, with the extracted tonnage echoed under the scale
entry. -/
def ruleReasons (rg sc : Int × String) (tonnage : Option ℚ)
    (sp ql : Int × String) : List String :=
  let reasons :=
    (if rg.1 > 0 then ["地域匹配：" ++ rg.2 ++ "（+" ++ toString rg.1 ++ "分）"] else [])
      ++ (if sc.1 > 0 then
            ["规模匹配：" ++ sc.2 ++ "（+" ++ toString sc.1 ++ "分）"]
              ++ (match tonnage with
                  | some q => if q == 0 then [] else ["提取吨位：" ++ pyFloatStr q ++ "吨"]
                  | none => [])
          else [])
      ++ (if sp.1 > 0 then ["项目范围匹配：" ++ sp.2 ++ "（+" ++ toString sp.1 ++ "分）"] else [])
      ++ (if ql.1 > 0 then ["资质匹配：" ++ ql.2 ++ "（+" ++ toString ql.1 ++ "分）"] else [])
  if reasons.isEmpty then ["未匹配到明显适配条件"] else reasons

/-- The risk flags `rule_score` builds, one per zero-scoring factor; the
scale flag embeds the tonnage and is only added when a tonnage exists. -/
def ruleRiskFlags (rg sc : Int) (tonnage : Option ℚ) (sp ql : Int) : List String :=
  (if rg == 0 then ["地域不在优先范围内"] else [])
    ++ (match tonnage with
        | some q =>
          if sc == 0 then
            ["规模不在目标范围（当前：" ++ pyFloatStr q ++ "吨，目标：200-3000吨）"]
          else []
        | none => [])
    ++ (if sp < 10 then ["项目类型或业务范围匹配度较低"] else [])
    ++ (if ql < 8 then ["资质要求可能不完全匹配"] else [])

/-- The `rule_score` of score_rules.py over an explicit profile. -/
def rule_score (p : Profile) (raw_text : String) (extracted_fields : DictS) :
    RuleScoreOut :=
  let full_text := ruleFullText raw_text extracted_fields
  let rg := extract_region_score full_text p
  let tonnage := ruleTonnage full_text extracted_fields
  let sc := score_scale tonnage p
  let sp := score_scope full_text p
  let ql := score_qualification full_text p
  ⟨min 100 (rg.1 + sc.1 + sp.1 + ql.1),
   ruleReasons rg sc tonnage sp ql,
   ruleRiskFlags rg.1 sc.1 tonnage sp.1 ql.1⟩

/-- The `negative_flags` literal list inside `is_clearly_mismatched`. -/
def negative_flags : List String :=
  ["地域不在优先范围内", "规模不在目标范围",
   "项目类型或业务范围匹配度较低", "资质要求可能不完全匹配"]

/-- The `is_clearly_mismatched` of score_rules.py.  Note the membership
test `flag in rule_risk_flags` is exact list membership of the template
strings, and the catch-all test is a substring test on the space-joined
reasons. -/
def is_clearly_mismatched (rule_score_val : Int)
    (rule_reasons rule_risk_flags : List String) : Bool × String :=
  if rule_score_val < 10 && !rule_risk_flags.isEmpty
      && negative_flags.any (fun f => rule_risk_flags.contains f) then
    (true, "规则评分极低（" ++ toString rule_score_val ++ "分）且存在明确负面风险提示")
  else if rule_score_val < 20
      && !(pyIn "未匹配到明显适配条件" (String.intercalate " " rule_reasons)) then
    (true, "规则评分低（" ++ toString rule_score_val ++ "分）且有明确不匹配原因")
  else (false, "规则未明确判定为不匹配")

/-! ## Result schema and fallbacks (schema.py, input_quality_gate.py) -/

/-- The `key_fields` sub-record of a decision. -/
structure KeyFields where
  location : String
  scope : String
  deadline : String
  tonnage : String
  qualification : String
deriving DecidableEq, Repr

def emptyKeyFields : KeyFields := ⟨"", "", "", "", ""⟩

/-- The `_meta` dictionary attached to a decision; every key the source
ever writes is a field, absent keys are `none`. -/
structure MetaD where
  input_quality : Option String
  decision_source : Option String
  rule_score : Option Int
  url : Option String
  title : Option String
  analysis_timestamp : Option String
deriving DecidableEq, Repr

def emptyMeta : MetaD := ⟨none, none, none, none, none, none⟩

/-- A decision dictionary as produced by `analyze_notice` and validated
by the `TenderAnalysisResult` schema.  `decision_state` is optional
because `check_consistency` explicitly handles its absence. -/
structure Decision where
  decision_state : Option String
  fit_label : String
  fit_score : Option Int
  region_match : String
  scope_match : String
  scale_match : String
  qualification_match : String
  summary : String
  reasons : List String
  risk_flags : List String
  key_fields : KeyFields
  meta : MetaD
deriving DecidableEq, Repr

/-- The `create_fallback_result` of schema.py. -/
def create_fallback_result (decision_source : String) : Decision :=
  { decision_state := some "REVIEW", fit_label := "REVIEW", fit_score := some 50,
    region_match := "UNKNOWN", scope_match := "UNKNOWN", scale_match := "UNKNOWN",
    qualification_match := "UNKNOWN",
    summary := "AI 分析失败，需要人工审核",
    reasons := ["AI 模型输出格式异常，已回退到人工审核模式"],
    risk_flags := ["需要人工确认项目适配度"],
    key_fields := emptyKeyFields,
    meta := { emptyMeta with decision_source := some decision_source } }

/-- The `create_insufficient_info_result` of input_quality_gate.py. -/
def create_insufficient_info_result (rule_score_val : Int)
    (rule_reasons : List String) (quality_info : QualityInfo) : Decision :=
  { decision_state := some "UNKNOWN", fit_label := "UNKNOWN", fit_score := none,
    region_match := "UNKNOWN", scope_match := "UNKNOWN", scale_match := "UNKNOWN",
    qualification_match := "UNKNOWN",
    summary := "公告信息不足，无法判断是否匹配公司业务。质量检查："
      ++ String.intercalate "; " quality_info.reasons
      ++ "。规则评分：" ++ toString rule_score_val ++ "/100。需人工确认或等待后续补充公告。",
    reasons := rule_reasons
      ++ ["输入质量不足：" ++ String.intercalate "; " quality_info.reasons],
    risk_flags := ["信息不足，无法做出可靠判断"]
      ++ (if rule_score_val < 20 then ["规则评分较低"] else []),
    key_fields := emptyKeyFields,
    meta :=
      { emptyMeta with
        input_quality := some "INSUFFICIENT"
        decision_source := some "QUALITY_GATE"
        rule_score := some rule_score_val } }

/-! ## Consistency corrections (analyzer.py) -/

def valid_labels : List String := ["RECOMMEND", "REVIEW", "SKIP", "UNKNOWN"]

def blank_labels : List String := ["-", "", "NULL", "NONE", "N/A"]

/-- The `normalize_fit_label` of analyzer.py. -/
def normalize_fit_label (label : String) : String :=
  let label_upper := pyStrip (pyUpper label)
  if valid_labels.contains label_upper then label_upper
  else if blank_labels.contains label_upper then "UNKNOWN"
  else "REVIEW"

def insufficient_keywords : List String :=
  ["信息不足", "信息不明确", "未明确", "无法确定", "无法判断", "不清楚"]

/-- Correction 4 of `check_consistency` (analyzer.py lines 80-85):
align `decision_state` with the authoritative `fit_label`. -/
def ccRule4 (r : Decision) : Decision :=
  match r.decision_state with
  | none => { r with decision_state := some r.fit_label }
  | some d => if d == r.fit_label then r else { r with decision_state := some r.fit_label }

/-- The `check_consistency` of analyzer.py.  `fit_score` and `summary`
are read once at entry (Python locals), so corrections 2 and 3 both test
the incoming score; Python truthiness makes a zero score skip the score
rewrites. -/
def check_consistency (result : Decision) (rule_score_val : Int)
    (rule_is_mismatched : Bool) : Decision :=
  let fit_score := result.fit_score
  let summary := pyLower result.summary
  let r1 := { result with fit_label := normalize_fit_label result.fit_label }
  let r2 :=
    if rule_is_mismatched && r1.fit_label == "RECOMMEND" then
      let r := { r1 with fit_label := "SKIP", decision_state := some "SKIP" }
      match fit_score with
      | some n => if !(n == 0) && n > 40 then { r with fit_score := some 30 } else r
      | none => r
    else r1
  let r3 :=
    match fit_score with
    | some n =>
      if !(n == 0) && n ≥ 80
          && insufficient_keywords.any (fun kw => pyIn kw summary) then
        { r2 with fit_label := "REVIEW", decision_state := some "REVIEW",
                  fit_score := some (min 60 (n - 20)) }
      else r2
    | none => r2
  ccRule4 r3

/-! ## The analysis pipeline (analyzer.py)

The Completion Service interaction is the one effectful step: its outcome
is passed to `analyze_notice` as data.  `LLMStage.callError` is
`call_ollama` raising (transport error, timeout, non-200);
`LLMStage.parseFail` is `parse_json_response` returning `None`;
`LLMStage.parsed` carries the parsed JSON object, restricted to the keys
the analyzer and the `TenderAnalysisResult` schema read.  The pipeline
itself raises nothing (the embedding is total), which models the
source's top-level exception handler never firing on these paths. -/

/-- A JSON value found under the `fit_score` key: `null`, an
`int()`-coercible value (int, numeric string, float truncated), or a
value on which `int()` raises. -/
inductive FitVal where
  | jnull
  | num (n : Int)
  | bad
deriving DecidableEq, Repr

/-- The parsed JSON dictionary, restricted to the keys the analyzer
reads.  `none` is an absent key.  String-typed keys are modelled as
strings; `wellformed` stands for the auxiliary keys (`summary`,
`reasons`, `risk_flags`, `key_fields`) holding schema-conforming value
types, since a wrong-typed value there fails validation exactly like an
invalid literal. -/
structure ParsedJson where
  decision_state : Option String
  fit_label : Option String
  fit_score : Option FitVal
  region_match : Option String
  scope_match : Option String
  scale_match : Option String
  qualification_match : Option String
  summary : Option String
  reasons : Option (List String)
  risk_flags : Option (List String)
  key_fields : Option KeyFields
  wellformed : Bool
deriving DecidableEq, Repr

/-- Pre-validation step, analyzer.py line 246: clamp a present, non-null
`fit_score` into 0..100. -/
def clampStep (p : ParsedJson) : ParsedJson :=
  match p.fit_score with
  | some (.num n) => { p with fit_score := some (.num (max 0 (min 100 n))) }
  | _ => p

/-- Pre-validation step, analyzer.py line 250: normalize a present
`fit_label`. -/
def normStep (p : ParsedJson) : ParsedJson :=
  match p.fit_label with
  | some l => { p with fit_label := some (normalize_fit_label l) }
  | none => p

/-- Pre-validation step, analyzer.py line 254: default `decision_state`
to the label (or the literal REVIEW). -/
def dsStep (p : ParsedJson) : ParsedJson :=
  match p.decision_state with
  | some _ => p
  | none => { p with decision_state := some (p.fit_label.getD "REVIEW") }

def valid_matches : List String := ["HIGH", "MED", "LOW", "UNKNOWN"]

/-- Pydantic validation `TenderAnalysisResult(**parsed_json)` followed by
`model_dump()`: the labels must be among the four states, the four match
levels among the four levels and present (they carry no default), the
score absent, null or within 0..100; defaulted fields are filled in. -/
def validateTAR (p : ParsedJson) : Option Decision :=
  match p.decision_state, p.fit_label with
  | some ds, some fl =>
    let fitOk := match p.fit_score with
      | none => true
      | some .jnull => true
      | some (.num n) => 0 ≤ n && n ≤ 100
      | some .bad => false
    let matchOk := fun m : Option String =>
      match m with
      | some v => valid_matches.contains v
      | none => false
    if valid_labels.contains ds && valid_labels.contains fl && fitOk
        && matchOk p.region_match && matchOk p.scope_match
        && matchOk p.scale_match && matchOk p.qualification_match
        && p.wellformed then
      some
        { decision_state := some ds, fit_label := fl,
          fit_score := match p.fit_score with | some (.num n) => some n | _ => none,
          region_match := p.region_match.getD "UNKNOWN",
          scope_match := p.scope_match.getD "UNKNOWN",
          scale_match := p.scale_match.getD "UNKNOWN",
          qualification_match := p.qualification_match.getD "UNKNOWN",
          summary := p.summary.getD "",
          reasons := p.reasons.getD [],
          risk_flags := p.risk_flags.getD [],
          key_fields := p.key_fields.getD emptyKeyFields,
          meta := emptyMeta }
    else none
  | _, _ => none

/-- Outcome of the Completion Service call and response parsing. -/
inductive LLMStage where
  | callError (msg : String)
  | parseFail (raw : String)
  | parsed (p : ParsedJson)
deriving DecidableEq, Repr

/-- The SCHEMA_ERROR fallback path (analyzer.py lines 266-289) applied to
the parsed dictionary in the mutation state it had when the exception
fired.  The Python summary interpolates the exception text; the
embedding keeps the fixed prefix, which no downstream test inspects. -/
def schemaErrorResult (q : ParsedJson) (ro : RuleScoreOut)
    (url title : String) : Decision :=
  let base := create_fallback_result "SCHEMA_ERROR"
  let b1 := { base with
    summary := "AI 输出格式校验失败。规则评分: " ++ toString ro.score ++ "/100",
    reasons := ro.reasons, risk_flags := ro.risk_flags }
  let b2 := match q.summary with
    | some s => { b1 with summary := String.mk (s.data.take 300) }
    | none => b1
  let b3 := match q.fit_score with
    | some (.num n) =>
      { b2 with
        fit_score := some (max 0 (min 100 n)),
        fit_label := normalize_fit_label (q.fit_label.getD "REVIEW"),
        decision_state := some (normalize_fit_label (q.fit_label.getD "REVIEW")) }
    | _ => b2
  { b3 with meta := { b3.meta with
      input_quality := some "GOOD", rule_score := some ro.score,
      url := some url, title := some title } }

/-- Result of one `analyze_notice` run, together with whether the
Completion Service was consulted (`call_ollama` reached). -/
structure AnalyzeOut where
  result : Decision
  llmCalled : Bool
deriving DecidableEq, Repr

/-- The `analyze_notice` of analyzer.py, over an explicit profile and
Completion Service outcome. -/
def analyze_notice (p : Profile) (llm : LLMStage)
    (title url raw_text : String) (extracted_fields : DictS) : AnalyzeOut :=
  let gate := check_input_quality raw_text title extracted_fields
  if gate.1 == "INSUFFICIENT" then
    let ro := rule_score p raw_text extracted_fields
    let base := create_insufficient_info_result ro.score ro.reasons gate.2
    ⟨{ base with meta := { base.meta with
        input_quality := some "INSUFFICIENT",
        decision_source := some "QUALITY_GATE",
        url := some url, title := some title,
        rule_score := some ro.score } }, false⟩
  else
    let ro := rule_score p raw_text extracted_fields
    let mm := is_clearly_mismatched ro.score ro.reasons ro.risk_flags
    if mm.1 then
      ⟨{ decision_state := some "SKIP", fit_label := "SKIP",
         fit_score := some (max 0 (min 30 ro.score)),
         region_match := if ro.score < 10 then "LOW" else "UNKNOWN",
         scope_match := if ro.score < 10 then "LOW" else "UNKNOWN",
         scale_match := if ro.score < 10 then "LOW" else "UNKNOWN",
         qualification_match := if ro.score < 10 then "LOW" else "UNKNOWN",
         summary := "规则引擎明确判定为不匹配。" ++ mm.2
           ++ "。规则评分：" ++ toString ro.score ++ "/100。",
         reasons := ro.reasons, risk_flags := ro.risk_flags,
         key_fields :=
           { location := dGet extracted_fields "location",
             scope := dGet extracted_fields "scope",
             deadline := dGet extracted_fields "deadline",
             tonnage := dGet extracted_fields "tonnage",
             qualification := dGet extracted_fields "qualification" },
         meta :=
           { input_quality := some "GOOD", decision_source := some "RULE",
             rule_score := some ro.score, url := some url,
             title := some title, analysis_timestamp := none } }, false⟩
    else
      match llm with
      | .callError msg =>
        let base := create_fallback_result "LLM_ERROR"
        ⟨{ base with
            summary := "AI 分析失败: " ++ msg ++ "。规则评分: " ++ toString ro.score ++ "/100",
            reasons := ro.reasons, risk_flags := ro.risk_flags,
            meta := { base.meta with
              input_quality := some "GOOD", rule_score := some ro.score,
              url := some url, title := some title } }, true⟩
      | .parseFail raw =>
        let base := create_fallback_result "LLM_PARSE_ERROR"
        ⟨{ base with
            summary := "AI 输出格式异常。规则评分: " ++ toString ro.score
              ++ "/100。原始输出: " ++ String.mk (raw.data.take 300),
            reasons := ro.reasons, risk_flags := ro.risk_flags,
            meta := { base.meta with
              input_quality := some "GOOD", rule_score := some ro.score,
              url := some url, title := some title } }, true⟩
      | .parsed pj =>
        match pj.fit_score with
        | some .bad => ⟨schemaErrorResult pj ro url title, true⟩
        | _ =>
          let p3 := dsStep (normStep (clampStep pj))
          match validateTAR p3 with
          | some v =>
            let rd := check_consistency v ro.score mm.1
            ⟨{ rd with meta :=
                { input_quality := some "GOOD", decision_source := some "LLM",
                  rule_score := some ro.score, url := some url,
                  title := some title, analysis_timestamp := none } }, true⟩
          | none => ⟨schemaErrorResult p3 ro url title, true⟩

/-! ## Store operations (db/operations.py) and the crawl pipeline step
(crawler/powerchina_crawler.py, steps 2-5 of `crawl_and_analyze`)

The store is the ordered `notices` table; datetimes are opaque strings;
`calculate_content_hash` (an md5 hex digest) enters as an abstract digest
function, since every property proved depends only on digest equality. -/

/-- A row of the `notices` table (models.py); nullable columns are
options. -/
structure Notice where
  title : String
  url : Option String
  source_item_id : Option String
  canonical_key : String
  published_at : Option String
  raw_text : Option String
  analysis_json : Option Decision
  created_at : Option String
  updated_at : Option String
deriving DecidableEq, Repr

/-- The `notices` table as an ordered list of rows. -/
abbrev Store : Type := List Notice

/-- The `get_notice_by_canonical_key` of operations.py:
`query(Notice).filter(canonical_key == k).first()`. -/
def get_notice_by_canonical_key (store : Store) (k : String) : Option Notice :=
  store.find? (fun n => n.canonical_key == k)

/-- In-place update of the first row with the given canonical key. -/
def replaceFirst (store : Store) (k : String) (n : Notice) : Store :=
  match store with
  | [] => []
  | x :: rest => if x.canonical_key == k then n :: rest else x :: replaceFirst rest k n

/-- The `save_notice` of operations.py: update the existing row for the
canonical key, overwriting title, url, source_item_id and raw_text
unconditionally but published_at and analysis_json only when truthy
(a `None` argument leaves the stored value); otherwise insert a new row.
`now` models `datetime.now()`. -/
def save_notice (store : Store) (title canonical_key : String)
    (url source_item_id : Option String) (raw_text : String)
    (published_at : Option String) (analysis_json : Option Decision)
    (now : String) : Store :=
  match get_notice_by_canonical_key store canonical_key with
  | some old =>
    let upd : Notice :=
      { old with
        title := title, url := url, source_item_id := source_item_id,
        raw_text := some raw_text,
        published_at := match published_at with
          | some pa => some pa
          | none => old.published_at,
        analysis_json := match analysis_json with
          | some aj => some aj
          | none => old.analysis_json,
        updated_at := some now }
    replaceFirst store canonical_key upd
  | none =>
    store ++ [{ title := title, url := url, source_item_id := source_item_id,
                canonical_key := canonical_key, published_at := published_at,
                raw_text := some raw_text, analysis_json := analysis_json,
                created_at := some now, updated_at := some now }]

/-- One list item entering steps 2-5 of `crawl_and_analyze`, after the
fetch cascade and `extract_raw_text` produced `raw_text`. -/
structure CrawlItem where
  title : String
  url : String
  source_item_id : Option String
  canonical_key : String
  published_at : Option String
  raw_text : String
deriving DecidableEq, Repr

/-- What one pipeline iteration did: whether the item was skipped by the
empty-text or unchanged-hash checks, whether `analyze_notice` ran, and
whether `save_notice` ran. -/
structure ProcessOutcome where
  skipped : Bool
  analyzeCalled : Bool
  saveCalled : Bool
deriving DecidableEq, Repr

/-- Steps 2-5 of `crawl_and_analyze` for one notice: hash-based change
detection against the store, conditional analysis, conditional save.
`hash` abstracts `calculate_content_hash`. -/
def processNotice (hash : String → String) (p : Profile) (llm : LLMStage)
    (analyze save_to_db : Bool) (now : String) (store : Store)
    (n : CrawlItem) : Store × ProcessOutcome :=
  if !strTruthy n.raw_text then (store, ⟨true, false, false⟩)
  else
    let content_hash := hash n.raw_text
    let existing :=
      if save_to_db && strTruthy n.canonical_key then
        get_notice_by_canonical_key store n.canonical_key
      else none
    let unchanged :=
      match existing with
      | some ex => hash (ex.raw_text.getD "") == content_hash
      | none => false
    if unchanged then (store, ⟨true, false, false⟩)
    else
      let analysis_json :=
        if analyze then some (analyze_notice p llm n.title n.url n.raw_text []).result
        else none
      if save_to_db && strTruthy n.canonical_key then
        (save_notice store n.title n.canonical_key (some n.url) n.source_item_id
          n.raw_text n.published_at analysis_json now,
         ⟨false, analyze, true⟩)
      else (store, ⟨false, analyze, false⟩)

/-! ## Specification-side definitions and concrete inputs

The two `spec…` definitions below follow the specification's words (for
comparison against the code's behaviour); everything else above follows
the source. -/

/-- Number of the four key signals {location, qualification, scope,
deadline} that are present, where a signal is present if a configured
keyword/pattern matches in text+title or the corresponding extracted
field is non-empty.  This follows the specification's words; the source
instead counts keyword hits and field hits separately (see
`gateKeyFieldsCount`). -/
def specC3SignalCount (raw_text title : String) (f : DictS) : Nat :=
  let full_text := pyLower (raw_text ++ " " ++ title)
  (if location_keywords.any (fun kw => pyIn kw full_text)
      || strTruthy (dGet f "location") then 1 else 0)
    + (if qual_keywords.any (fun kw => pyIn kw full_text)
          || strTruthy (dGet f "qualification") then 1 else 0)
    + (if scope_keywords.any (fun kw => pyIn kw full_text)
          || strTruthy (dGet f "scope") then 1 else 0)
    + (if deadlineHit full_text
          || strTruthy (dGet f "deadline") then 1 else 0)

/-- The clear-mismatch predicate as the specification's words describe
it: score below 10 with at least one of the negative risk flags rule_score
produces present in riskFlags (the scale flag rule_score produces embeds
the current tonnage, so it is recognized here by its fixed prefix), or
score below 20 with the catch-all reason absent from the reasons. -/
def specC5Mismatch (score : Int) (reasons risk_flags : List String) : Bool :=
  (score < 10 && risk_flags.any (fun fl =>
      fl == "地域不在优先范围内"
        || fl == "项目类型或业务范围匹配度较低"
        || fl == "资质要求可能不完全匹配"
        || "规模不在目标范围".data.isPrefixOf fl.data))
    || (score < 20 && !(reasons.contains "未匹配到明显适配条件"))

/-- Modelled from the spec: the company_profile.json configuration file
is not under src/ (only its loader is).  Section 4.4 of the spec fixes
the scale band 200-3000 with optimal sub-band around the target 1000 and
configured region/project/preference/qualification keyword tables; this
sample instantiates them minimally for concrete evaluation.  Every
theorem quantifying over `Profile` is independent of these values. -/
def sampleProfile : Profile :=
  { region_priority := [("西南", 30)],
    region_keywords := [("西南", ["甲地"])],
    scale_range := ⟨200, 3000, 800, 1200, 1000⟩,
    project_keywords := [("钢结构工程", ["钢结构"])],
    preference_keywords := ["加工制作"],
    qualification_keywords := [("施工资质", ["施工总承包"])] }

/-- A 302-character body containing the location keyword and the sample
region keyword (its last replicate character joins 地 to form 甲地):
passes the gate when a location field is extracted, scores 30 from the
region factor, and is not clearly mismatched. -/
def goodText : String := String.mk (List.replicate 300 '甲') ++ "地点"

/-- A 302-character body containing the location keyword but no scoring
keyword: passes the gate when a location field is extracted, scores 0,
and is clearly mismatched. -/
def mismatchText : String := String.mk (List.replicate 300 '何') ++ "地点"

/-- A single extracted field making the location signal doubly attested. -/
def locFields : DictS := [("location", "成都")]

/-- A validated-shape model response: UNKNOWN label with a present score. -/
def pjUnknown88 : ParsedJson :=
  { decision_state := some "UNKNOWN", fit_label := some "UNKNOWN",
    fit_score := some (.num 88), region_match := some "UNKNOWN",
    scope_match := some "UNKNOWN", scale_match := some "UNKNOWN",
    qualification_match := some "UNKNOWN", summary := some "",
    reasons := some [], risk_flags := some [], key_fields := some emptyKeyFields,
    wellformed := true }

/-- A model result with label RECOMMEND and score 35 (in the 31..40 band
correction 2 does not touch). -/
def recommend35 : Decision :=
  { decision_state := some "RECOMMEND", fit_label := "RECOMMEND",
    fit_score := some 35, region_match := "HIGH", scope_match := "HIGH",
    scale_match := "HIGH", qualification_match := "HIGH",
    summary := "", reasons := [], risk_flags := [],
    key_fields := emptyKeyFields, meta := emptyMeta }

/-- A model result with label RECOMMEND and score 50. -/
def recommend50 : Decision :=
  { recommend35 with fit_score := some 50 }

/-- A model result scoring 95 whose summary carries an
insufficient-information indicator. -/
def highButInsufficient : Decision :=
  { recommend35 with fit_score := some 95, summary := "信息不足，无法确认范围" }

/-- A stored row whose raw text matches a re-crawled item. -/
def storedNotice : Notice :=
  { title := "旧标题", url := some "https://old", source_item_id := some "id1",
    canonical_key := "source:id1", published_at := some "2024-01-01",
    raw_text := some "正文甲", analysis_json := some (create_fallback_result "LLM"),
    created_at := some "t0", updated_at := some "t0" }

/-- The re-crawled item with identical extracted text. -/
def unchangedItem : CrawlItem :=
  { title := "新标题", url := "https://new", source_item_id := some "id1",
    canonical_key := "source:id1", published_at := some "2024-01-02",
    raw_text := "正文甲" }

/-! ## Helper lemmas -/

theorem ccRule4_fit_label (r : Decision) : (ccRule4 r).fit_label = r.fit_label := by
  unfold ccRule4
  split
  · rfl
  · split <;> rfl

theorem ccRule4_fit_score (r : Decision) : (ccRule4 r).fit_score = r.fit_score := by
  unfold ccRule4
  split
  · rfl
  · split <;> rfl

theorem ccRule4_state_eq_label (r : Decision) :
    (ccRule4 r).decision_state = some (ccRule4 r).fit_label := by
  unfold ccRule4
  split
  · rfl
  · rename_i d heq
    split
    · rename_i h
      rw [heq]
      simp only [beq_iff_eq] at h
      rw [h]
    · rfl

theorem check_consistency_state_eq_label (r : Decision) (s : Int) (m : Bool) :
    (check_consistency r s m).decision_state
      = some (check_consistency r s m).fit_label := by
  unfold check_consistency
  exact ccRule4_state_eq_label _

theorem schemaErrorResult_state_eq_label (q : ParsedJson) (ro : RuleScoreOut)
    (u t : String) :
    (schemaErrorResult q ro u t).decision_state
      = some (schemaErrorResult q ro u t).fit_label := by
  unfold schemaErrorResult
  cases hq : q.fit_score with
  | none => cases q.summary <;> rfl
  | some fv => cases fv <;> cases q.summary <;> rfl

theorem strip_empty_of_not_truthy (s : String) (h : strTruthy s = false) :
    strLen (pyStrip s) = 0 := by
  obtain ⟨l⟩ := s
  have hl : l = [] := by simpa [strTruthy] using h
  subst hl
  rfl

theorem pyInt_nonneg (q : ℚ) (h : 0 ≤ q) : 0 ≤ pyInt q := by
  unfold pyInt
  exact Int.tdiv_nonneg (Rat.num_nonneg.mpr h) (Int.ofNat_nonneg q.den)

theorem region_fold_nonneg (p : Profile) (t : String) (l : List (String × Int))
    (acc : Int × String) (h : 0 ≤ acc.1) :
    0 ≤ (l.foldl
      (fun acc rp =>
        if (lookupKws p.region_keywords rp.1).any (fun kw => pyIn kw t)
            && rp.2 > acc.1 then
          (rp.2, rp.1)
        else acc) acc).1 := by
  induction l generalizing acc with
  | nil => exact h
  | cons hd tl ih =>
    dsimp only [List.foldl]
    apply ih
    split
    · rename_i hc
      simp only [Bool.and_eq_true, decide_eq_true_eq] at hc
      dsimp only
      linarith [hc.2, h]
    · exact h

theorem extract_region_score_nonneg (t : String) (p : Profile) :
    0 ≤ (extract_region_score t p).1 := by
  unfold extract_region_score
  exact region_fold_nonneg p t p.region_priority (0, "UNKNOWN") le_rfl

theorem score_scale_nonneg (t : Option ℚ) (p : Profile) : 0 ≤ (score_scale t p).1 := by
  unfold score_scale
  cases t with
  | none => simp
  | some q =>
    dsimp only
    split
    · simp
    · split
      · exact le_max_left 0 _
      · rename_i h1 h2
        split
        · rename_i h3
          apply pyInt_nonneg
          simp only [Bool.or_eq_true, decide_eq_true_eq, not_or] at h1
          simp only [Bool.and_eq_true, decide_eq_true_eq] at h3
          have hd : (0:ℚ) < p.scale_range.optimal_min - p.scale_range.min := by
            rcases h3 with ⟨ha, hb⟩
            linarith
          have hn : (0:ℚ) ≤ q - p.scale_range.min := by linarith [h3.1]
          positivity
        · rename_i h3
          apply pyInt_nonneg
          simp only [Bool.or_eq_true, decide_eq_true_eq, not_or] at h1
          simp only [Bool.and_eq_true, decide_eq_true_eq, not_and, not_lt] at h2 h3
          have hmin : p.scale_range.min ≤ q := not_lt.mp h1.1
          have hmax : q ≤ p.scale_range.max := not_lt.mp h1.2
          have hopt : p.scale_range.optimal_max < q := not_le.mp (h2 (h3 hmin))
          have hd : (0:ℚ) < p.scale_range.max - p.scale_range.optimal_max := by linarith
          have hn : (0:ℚ) ≤ p.scale_range.max - q := by linarith
          positivity

theorem score_scope_nonneg (t : String) (p : Profile) : 0 ≤ (score_scope t p).1 := by
  unfold score_scope
  dsimp only
  split <;> split <;> decide

theorem score_qualification_nonneg (t : String) (p : Profile) :
    0 ≤ (score_qualification t p).1 := by
  unfold score_qualification
  dsimp only
  split
  · positivity
  · split <;> positivity

theorem rule_score_nonneg (p : Profile) (rt : String) (f : DictS) :
    0 ≤ (rule_score p rt f).score := by
  unfold rule_score
  dsimp only
  have h1 := extract_region_score_nonneg (ruleFullText rt f) p
  have h2 := score_scale_nonneg (ruleTonnage (ruleFullText rt f) f) p
  have h3 := score_scope_nonneg (ruleFullText rt f) p
  have h4 := score_qualification_nonneg (ruleFullText rt f) p
  have h5 : (0:Int) ≤ 100 := by norm_num
  exact le_min h5 (by linarith)

theorem rule_score_scope_lt_10 (p : Profile) (rt : String) (f : DictS)
    (h : (rule_score p rt f).score < 10) :
    (score_scope (ruleFullText rt f) p).1 < 10 := by
  have h2 : min (100:Int)
      ((extract_region_score (ruleFullText rt f) p).1
        + (score_scale (ruleTonnage (ruleFullText rt f) f) p).1
        + (score_scope (ruleFullText rt f) p).1
        + (score_qualification (ruleFullText rt f) p).1) < 10 := h
  have hsum := min_lt_iff.mp h2
  have h1 := extract_region_score_nonneg (ruleFullText rt f) p
  have h3 := score_scale_nonneg (ruleTonnage (ruleFullText rt f) f) p
  have h4 := score_qualification_nonneg (ruleFullText rt f) p
  rcases hsum with hbad | hs
  · norm_num at hbad
  · linarith

theorem rule_score_scope_flag (p : Profile) (rt : String) (f : DictS)
    (h : (rule_score p rt f).score < 10) :
    "项目类型或业务范围匹配度较低" ∈ (rule_score p rt f).risk_flags := by
  have hsp := rule_score_scope_lt_10 p rt f h
  show "项目类型或业务范围匹配度较低" ∈ ruleRiskFlags _ _ _ _ _
  unfold ruleRiskFlags
  simp only [List.mem_append]
  left
  right
  rw [if_pos hsp]
  exact List.mem_singleton_self _

theorem icm_iff (s : Int) (reasons flags : List String) :
    (is_clearly_mismatched s reasons flags).1 = true ↔
      ((s < 10 ∧ flags ≠ [] ∧ ∃ f2 ∈ negative_flags, flags.contains f2 = true)
        ∨ (s < 20 ∧ pyIn "未匹配到明显适配条件" (String.intercalate " " reasons) = false)) := by
  unfold is_clearly_mismatched
  split
  · rename_i h1
    simp only [Bool.and_eq_true, decide_eq_true_eq, Bool.not_eq_true',
      List.isEmpty_eq_false, List.any_eq_true] at h1
    obtain ⟨⟨hs, hne⟩, f2, hmem, hcont⟩ := h1
    simp only [true_iff]
    exact Or.inl ⟨hs, hne, f2, hmem, hcont⟩
  · rename_i h1
    split
    · rename_i h2
      simp only [Bool.and_eq_true, decide_eq_true_eq, Bool.not_eq_true'] at h2
      simp only [true_iff]
      exact Or.inr ⟨h2.1, h2.2⟩
    · rename_i h2
      simp only [Bool.and_eq_true, decide_eq_true_eq, Bool.not_eq_true',
        List.isEmpty_eq_false, List.any_eq_true, not_and, not_exists] at h1 h2
      constructor
      · intro hfalse
        exact absurd hfalse (by decide)
      · intro hor
        rcases hor with ⟨hs, hne, f2, hmem, hcont⟩ | ⟨hs, hcat⟩
        · exact absurd hcont (by
            intro hc
            exact absurd hc ((fun hp => hp f2 hmem) (h1 ⟨hs, hne⟩)))
        · exact absurd hcat (h2 hs)

theorem icm_of_low_rule_score (p : Profile) (rt : String) (f : DictS)
    (h : (rule_score p rt f).score < 10) :
    (is_clearly_mismatched (rule_score p rt f).score (rule_score p rt f).reasons
      (rule_score p rt f).risk_flags).1 = true := by
  apply (icm_iff _ _ _).mpr
  left
  have hmem := rule_score_scope_flag p rt f h
  refine ⟨h, List.ne_nil_of_mem hmem, "项目类型或业务范围匹配度较低", by decide, ?_⟩
  exact List.elem_iff.mpr hmem

theorem find_after_replace (store : Store) (k : String) (n : Notice)
    (hn : (n.canonical_key == k) = true) :
    ∀ old, get_notice_by_canonical_key store k = some old →
      get_notice_by_canonical_key (replaceFirst store k n) k = some n := by
  induction store with
  | nil =>
    intro old hf
    simp [get_notice_by_canonical_key] at hf
  | cons x rest ih =>
    intro old hf
    by_cases hx : (x.canonical_key == k) = true
    · unfold replaceFirst get_notice_by_canonical_key
      rw [if_pos hx]
      exact List.find?_cons_of_pos _ hn
    · have hf' : get_notice_by_canonical_key rest k = some old := by
        unfold get_notice_by_canonical_key at hf ⊢
        rwa [List.find?_cons_of_neg (p := fun (m : Notice) => m.canonical_key == k) rest hx] at hf
      unfold replaceFirst get_notice_by_canonical_key
      rw [if_neg hx]
      rw [List.find?_cons_of_neg (p := fun (m : Notice) => m.canonical_key == k) _ hx]
      exact ih old hf'

/-! ## The claims -/

/-- C1 counterexample: with a clear rule mismatch and a normalized
RECOMMEND label, an incoming fit_score of 35 (nonzero, not above 40) is
passed through unchanged, so the resulting fit_score is 35, above the
cap of 30 the claim asserts for every incoming score. -/
theorem C1_counterexample :
    (check_consistency recommend35 5 true).fit_label = "SKIP"
      ∧ (check_consistency recommend35 5 true).decision_state = some "SKIP"
      ∧ (check_consistency recommend35 5 true).fit_score = some 35 := by
  decide

/-- C1 (amended): when the rule engine judged a clear mismatch, the
normalized label is RECOMMEND, and correction 3 does not fire (no score
of at least 80 together with an insufficient-information summary),
check_consistency forces fit_label and decision_state to SKIP, and
rewrites fit_score to 30 exactly when the incoming score is truthy and
above 40, passing it through unchanged otherwise. -/
theorem C1_amended_correction (r : Decision) (s : Int)
    (hlab : normalize_fit_label r.fit_label = "RECOMMEND")
    (h3 : ∀ n, r.fit_score = some n → n ≥ 80 →
      insufficient_keywords.any (fun kw => pyIn kw (pyLower r.summary)) = false) :
    (check_consistency r s true).fit_label = "SKIP"
      ∧ (check_consistency r s true).decision_state = some "SKIP"
      ∧ (check_consistency r s true).fit_score =
          (match r.fit_score with
           | some n => some (if n ≠ 0 ∧ n > 40 then 30 else n)
           | none => none) := by
  unfold check_consistency
  dsimp only
  cases hr : r.fit_score with
  | none =>
    rw [hlab]
    simp only [beq_self_eq_true, Bool.and_self, if_true]
    refine ⟨?_, ?_, ?_⟩
    · rw [ccRule4_fit_label]
    · rw [ccRule4_state_eq_label, ccRule4_fit_label]
    · rw [ccRule4_fit_score]
  | some n =>
    rw [hlab]
    simp only [beq_self_eq_true, Bool.and_self, if_true]
    have hcond : (!(n == 0) && decide (n ≥ 80)
        && insufficient_keywords.any (fun kw => pyIn kw (pyLower r.summary))) = false := by
      by_cases h80 : n ≥ 80
      · rw [h3 n hr h80]
        simp
      · simp [h80]
    rw [hcond]
    simp only [Bool.false_eq_true, if_false]
    by_cases h40 : (!(n == 0) && decide (n > 40)) = true
    · rw [if_pos h40]
      have hp : (n ≠ 0 ∧ n > 40) := by
        simp only [Bool.and_eq_true, Bool.not_eq_true', beq_eq_false_iff_ne,
          decide_eq_true_eq] at h40
        exact h40
      refine ⟨?_, ?_, ?_⟩
      · rw [ccRule4_fit_label]
      · rw [ccRule4_state_eq_label, ccRule4_fit_label]
      · rw [ccRule4_fit_score]
        dsimp only
        rw [if_pos hp]
    · rw [if_neg h40]
      have hp : ¬(n ≠ 0 ∧ n > 40) := by
        simp only [Bool.and_eq_true, Bool.not_eq_true', beq_eq_false_iff_ne,
          decide_eq_true_eq] at h40
        exact h40
      refine ⟨?_, ?_, ?_⟩
      · rw [ccRule4_fit_label]
      · rw [ccRule4_state_eq_label, ccRule4_fit_label]
      · rw [ccRule4_fit_score]
        dsimp only
        rw [if_neg hp]

/-- C1 witness: a RECOMMEND result scoring 50 under a clear rule
mismatch is forced to SKIP with its score rewritten to 30. -/
theorem C1_amended_correction_witness :
    normalize_fit_label recommend50.fit_label = "RECOMMEND"
      ∧ ((check_consistency recommend50 5 true).fit_label = "SKIP"
        ∧ (check_consistency recommend50 5 true).decision_state = some "SKIP"
        ∧ (check_consistency recommend50 5 true).fit_score =
            (match recommend50.fit_score with
             | some n => some (if n ≠ 0 ∧ n > 40 then 30 else n)
             | none => none)) :=
  ⟨by decide,
   C1_amended_correction recommend50 5 (by decide)
     (fun n heq h80 => absurd h80 (by
       have h5 : some (50:Int) = some n := heq
       cases h5
       decide))⟩

/-- C2: the invariant fails on the code.  A quality-passing notice with
a schema-valid Completion Service response labelled UNKNOWN but carrying
fitScore 88 makes analyze_notice return decision_state UNKNOWN with
fit_score present, contradicting the claimed absence exactly at
UNKNOWN. -/
theorem C2_code_evaluation :
    (analyze_notice sampleProfile (.parsed pjUnknown88) "" "" goodText
        locFields).result.decision_state = some "UNKNOWN"
      ∧ (analyze_notice sampleProfile (.parsed pjUnknown88) "" "" goodText
        locFields).result.fit_score = some 88 := by
  decide

/-- C3 counterexample: a 302-character body containing the location
keyword together with a non-empty extracted location field makes
check_input_quality return GOOD although only one of the four signals of
the claim is present, so the claimed if-and-only-if characterization of
INSUFFICIENT fails. -/
theorem C3_counterexample :
    (check_input_quality goodText "" locFields).1 = "GOOD"
      ∧ specC3SignalCount goodText "" locFields = 1 := by
  decide

/-- C3 (amended): check_input_quality returns INSUFFICIENT exactly when
the stripped text is shorter than 300 characters or the accumulated
key-field count is below 2, where that count adds one per keyword or
pattern hit and one per non-empty extracted field separately (so one
signal attested both ways already passes the gate); in particular any
text whose stripped length is below 300, such as one of length 250,
yields INSUFFICIENT whatever the signals. -/
theorem C3_amended_gate :
    (∀ rt t f, (check_input_quality rt t f).1 = "INSUFFICIENT" ↔
        (strLen (pyStrip rt) < 300 ∨ gateKeyFieldsCount rt t f < 2))
      ∧ (∀ rt t f, strLen (pyStrip rt) < 300 →
        (check_input_quality rt t f).1 = "INSUFFICIENT") := by
  have hmain : ∀ rt t f, (check_input_quality rt t f).1 = "INSUFFICIENT" ↔
      (strLen (pyStrip rt) < 300 ∨ gateKeyFieldsCount rt t f < 2) := by
    intro rt t f
    unfold check_input_quality
    dsimp only
    split
    · rename_i h
      simp only [Bool.or_eq_true, Bool.not_eq_true', decide_eq_true_eq] at h
      constructor
      · intro _
        left
        rcases h with h | h
        · rw [strip_empty_of_not_truthy rt h]
          omega
        · exact h
      · intro _
        rfl
    · rename_i h
      simp only [Bool.or_eq_true, Bool.not_eq_true', decide_eq_true_eq, not_or] at h
      split
      · rename_i hc
        constructor
        · intro _
          right
          exact hc
        · intro _
          rfl
      · rename_i hc
        constructor
        · intro hg
          simp at hg
        · intro hor
          rcases hor with h1 | h2
          · exact absurd h1 (by simpa using h.2)
          · exact absurd h2 hc
  exact ⟨hmain, fun rt t f h => (hmain rt t f).2 (Or.inl h)⟩

/-- C3 witness: a one-character body is rejected by the length check. -/
theorem C3_amended_gate_witness :
    strLen (pyStrip "短") < 300
      ∧ (check_input_quality "短" "" []).1 = "INSUFFICIENT" :=
  ⟨by decide, C3_amended_gate.2 "短" "" [] (by decide)⟩

/-- C4: when the quality gate returns GOOD and the rule output is
clearly mismatched, analyze_notice short-circuits to a SKIP decision
with fit_score min(30, ruleScore), all four match levels LOW or
UNKNOWN, decision source RULE, and the Completion Service is never
called, whatever its outcome would have been. -/
theorem C4_rule_shortcut (p : Profile) (llm : LLMStage) (t u rt : String) (f : DictS)
    (hgate : (check_input_quality rt t f).1 = "GOOD")
    (hmm : (is_clearly_mismatched (rule_score p rt f).score
      (rule_score p rt f).reasons (rule_score p rt f).risk_flags).1 = true) :
    (analyze_notice p llm t u rt f).result.decision_state = some "SKIP"
      ∧ (analyze_notice p llm t u rt f).result.fit_label = "SKIP"
      ∧ (analyze_notice p llm t u rt f).result.fit_score
          = some (min 30 (rule_score p rt f).score)
      ∧ ((analyze_notice p llm t u rt f).result.region_match = "LOW"
          ∨ (analyze_notice p llm t u rt f).result.region_match = "UNKNOWN")
      ∧ ((analyze_notice p llm t u rt f).result.scope_match = "LOW"
          ∨ (analyze_notice p llm t u rt f).result.scope_match = "UNKNOWN")
      ∧ ((analyze_notice p llm t u rt f).result.scale_match = "LOW"
          ∨ (analyze_notice p llm t u rt f).result.scale_match = "UNKNOWN")
      ∧ ((analyze_notice p llm t u rt f).result.qualification_match = "LOW"
          ∨ (analyze_notice p llm t u rt f).result.qualification_match = "UNKNOWN")
      ∧ (analyze_notice p llm t u rt f).result.meta.decision_source = some "RULE"
      ∧ (analyze_notice p llm t u rt f).llmCalled = false := by
  unfold analyze_notice
  dsimp only
  rw [hgate]
  rw [if_neg (by decide)]
  rw [hmm]
  rw [if_pos rfl]
  refine ⟨rfl, rfl, ?_, ?_, ?_, ?_, ?_, rfl, rfl⟩
  · dsimp only
    have h0 : (0:Int) ≤ min 30 (rule_score p rt f).score :=
      le_min (by norm_num) (rule_score_nonneg p rt f)
    rw [max_eq_right h0]
  all_goals
    dsimp only
    split
    · exact Or.inl rfl
    · exact Or.inr rfl

/-- C4 witness: a keyword-free 302-character body with an extracted
location passes the gate, scores 0, is clearly mismatched, and is
short-circuited to SKIP without consulting the Completion Service. -/
theorem C4_rule_shortcut_witness :
    ((check_input_quality mismatchText "" locFields).1 = "GOOD"
      ∧ (is_clearly_mismatched (rule_score sampleProfile mismatchText locFields).score
          (rule_score sampleProfile mismatchText locFields).reasons
          (rule_score sampleProfile mismatchText locFields).risk_flags).1 = true)
    ∧ ((analyze_notice sampleProfile (.callError "连接失败") "" "" mismatchText
          locFields).result.decision_state = some "SKIP"
      ∧ (analyze_notice sampleProfile (.callError "连接失败") "" "" mismatchText
          locFields).result.fit_label = "SKIP"
      ∧ (analyze_notice sampleProfile (.callError "连接失败") "" "" mismatchText
          locFields).result.fit_score
            = some (min 30 (rule_score sampleProfile mismatchText locFields).score)
      ∧ ((analyze_notice sampleProfile (.callError "连接失败") "" "" mismatchText
            locFields).result.region_match = "LOW"
          ∨ (analyze_notice sampleProfile (.callError "连接失败") "" "" mismatchText
            locFields).result.region_match = "UNKNOWN")
      ∧ ((analyze_notice sampleProfile (.callError "连接失败") "" "" mismatchText
            locFields).result.scope_match = "LOW"
          ∨ (analyze_notice sampleProfile (.callError "连接失败") "" "" mismatchText
            locFields).result.scope_match = "UNKNOWN")
      ∧ ((analyze_notice sampleProfile (.callError "连接失败") "" "" mismatchText
            locFields).result.scale_match = "LOW"
          ∨ (analyze_notice sampleProfile (.callError "连接失败") "" "" mismatchText
            locFields).result.scale_match = "UNKNOWN")
      ∧ ((analyze_notice sampleProfile (.callError "连接失败") "" "" mismatchText
            locFields).result.qualification_match = "LOW"
          ∨ (analyze_notice sampleProfile (.callError "连接失败") "" "" mismatchText
            locFields).result.qualification_match = "UNKNOWN")
      ∧ (analyze_notice sampleProfile (.callError "连接失败") "" "" mismatchText
          locFields).result.meta.decision_source = some "RULE"
      ∧ (analyze_notice sampleProfile (.callError "连接失败") "" "" mismatchText
          locFields).llmCalled = false) :=
  ⟨⟨by decide, by decide⟩,
   C4_rule_shortcut sampleProfile (.callError "连接失败") "" "" mismatchText locFields
     (by decide) (by decide)⟩

/-- C5 counterexample: at score 5 with the catch-all reason present and
a risk-flag list holding only the scale flag in the exact shape
rule_score produces (tonnage embedded), is_clearly_mismatched returns
false although the claimed characterization (a negative flag produced by
rule_score is present and score is below 10) says true. -/
theorem C5_counterexample :
    (is_clearly_mismatched 5 ["未匹配到明显适配条件"]
        ["规模不在目标范围（当前：5000.0吨，目标：200-3000吨）"]).1 = false
      ∧ specC5Mismatch 5 ["未匹配到明显适配条件"]
          ["规模不在目标范围（当前：5000.0吨，目标：200-3000吨）"] = true := by
  decide

/-- C5 (amended): is_clearly_mismatched returns true exactly when score
is below 10 and one of the four exact template strings is an element of
riskFlags — the scale flag rule_score produces embeds the tonnage, so it
never matches its template — or score is below 20 and the catch-all
reason is not a substring of the space-joined reasons; and over actual
rule_score outputs every score below 10 yields true, because the scope
flag is then always present (in particular when the scale factor scored
zero on an extracted tonnage). -/
theorem C5_amended_mismatch :
    (∀ (s : Int) (reasons flags : List String),
      (is_clearly_mismatched s reasons flags).1 = true ↔
        ((s < 10 ∧ flags ≠ [] ∧ ∃ f2 ∈ negative_flags, flags.contains f2 = true)
          ∨ (s < 20 ∧ pyIn "未匹配到明显适配条件" (String.intercalate " " reasons) = false)))
    ∧ (∀ (p : Profile) (rt : String) (f : DictS),
        (rule_score p rt f).score < 10 →
        (is_clearly_mismatched (rule_score p rt f).score (rule_score p rt f).reasons
          (rule_score p rt f).risk_flags).1 = true) :=
  ⟨icm_iff, icm_of_low_rule_score⟩

/-- C5 witness: the keyword-free body scores 0, and the predicate
judges its rule output clearly mismatched. -/
theorem C5_amended_mismatch_witness :
    (rule_score sampleProfile mismatchText locFields).score < 10
      ∧ (is_clearly_mismatched (rule_score sampleProfile mismatchText locFields).score
          (rule_score sampleProfile mismatchText locFields).reasons
          (rule_score sampleProfile mismatchText locFields).risk_flags).1 = true :=
  ⟨by decide,
   C5_amended_mismatch.2 sampleProfile mismatchText locFields (by decide)⟩

/-- C6: on every path of analyze_notice — quality gate, rule
short-circuit, call error, parse error, schema error and validated
response — the returned decision has decision_state equal to its
fit_label. -/
theorem C6_state_equals_label (p : Profile) (llm : LLMStage) (t u rt : String)
    (f : DictS) :
    (analyze_notice p llm t u rt f).result.decision_state
      = some (analyze_notice p llm t u rt f).result.fit_label := by
  unfold analyze_notice
  dsimp only
  split
  · rfl
  · split
    · rfl
    · cases llm with
      | callError msg => rfl
      | parseFail raw => rfl
      | parsed pj =>
        dsimp only
        split
        · exact schemaErrorResult_state_eq_label _ _ _ _
        · split
          · rename_i v hv
            exact check_consistency_state_eq_label v _ _
          · exact schemaErrorResult_state_eq_label _ _ _ _

/-- C7: whenever the incoming fit_score is at least 80 and the summary
contains an insufficient-information indicator, check_consistency forces
fit_label and decision_state to REVIEW and rewrites fit_score to
min(60, fitScore - 20), whatever the rule score and mismatch verdict. -/
theorem C7_high_score_insufficient (r : Decision) (s : Int) (m : Bool) (n : Int)
    (hsc : r.fit_score = some n) (h80 : n ≥ 80)
    (hkw : insufficient_keywords.any (fun kw => pyIn kw (pyLower r.summary)) = true) :
    (check_consistency r s m).fit_label = "REVIEW"
      ∧ (check_consistency r s m).decision_state = some "REVIEW"
      ∧ (check_consistency r s m).fit_score = some (min 60 (n - 20)) := by
  have hn0 : (n == 0) = false := by
    simp only [beq_eq_false_iff_ne]
    omega
  unfold check_consistency
  dsimp only
  rw [hsc]
  simp only [hn0, Bool.not_false, hkw, decide_eq_true h80, Bool.and_self, Bool.true_and,
    Bool.and_true, if_true]
  refine ⟨?_, ?_, ?_⟩
  · rw [ccRule4_fit_label]
  · rw [ccRule4_state_eq_label, ccRule4_fit_label]
  · rw [ccRule4_fit_score]

/-- C7 witness: a result scoring 95 whose summary starts with 信息不足
is downgraded to REVIEW at min(60, 75) = 60. -/
theorem C7_high_score_insufficient_witness :
    (highButInsufficient.fit_score = some 95
      ∧ (95:Int) ≥ 80
      ∧ insufficient_keywords.any
          (fun kw => pyIn kw (pyLower highButInsufficient.summary)) = true)
    ∧ ((check_consistency highButInsufficient 85 false).fit_label = "REVIEW"
      ∧ (check_consistency highButInsufficient 85 false).decision_state = some "REVIEW"
      ∧ (check_consistency highButInsufficient 85 false).fit_score
          = some (min 60 (95 - 20))) :=
  ⟨⟨by decide, by decide, by decide⟩,
   C7_high_score_insufficient highButInsufficient 85 false 95 (by decide) (by decide)
     (by decide)⟩

/-- C8: past the gate and the rule short-circuit, a Completion Service
call failure returns (not raises) a REVIEW decision tagged LLM_ERROR,
and an unparseable response returns a REVIEW decision tagged
LLM_PARSE_ERROR; the embedding is total, so no exception escapes. -/
theorem C8_llm_failure_fallbacks (p : Profile) (t u rt : String) (f : DictS)
    (msg raw : String)
    (hgate : (check_input_quality rt t f).1 = "GOOD")
    (hnm : (is_clearly_mismatched (rule_score p rt f).score
      (rule_score p rt f).reasons (rule_score p rt f).risk_flags).1 = false) :
    ((analyze_notice p (.callError msg) t u rt f).result.decision_state = some "REVIEW"
      ∧ (analyze_notice p (.callError msg) t u rt f).result.meta.decision_source
          = some "LLM_ERROR")
    ∧ ((analyze_notice p (.parseFail raw) t u rt f).result.decision_state = some "REVIEW"
      ∧ (analyze_notice p (.parseFail raw) t u rt f).result.meta.decision_source
          = some "LLM_PARSE_ERROR") := by
  unfold analyze_notice
  dsimp only
  rw [hgate]
  rw [if_neg (by decide)]
  rw [hnm]
  simp only [Bool.false_eq_true, if_false]
  exact ⟨⟨rfl, rfl⟩, ⟨rfl, rfl⟩⟩

/-- C8 witness: a gate-passing, region-matched body (score 30, not
mismatched) under a call error and under an unparseable response. -/
theorem C8_llm_failure_fallbacks_witness :
    ((check_input_quality goodText "" locFields).1 = "GOOD"
      ∧ (is_clearly_mismatched (rule_score sampleProfile goodText locFields).score
          (rule_score sampleProfile goodText locFields).reasons
          (rule_score sampleProfile goodText locFields).risk_flags).1 = false)
    ∧ (((analyze_notice sampleProfile (.callError "超时") "" "" goodText
          locFields).result.decision_state = some "REVIEW"
      ∧ (analyze_notice sampleProfile (.callError "超时") "" "" goodText
          locFields).result.meta.decision_source = some "LLM_ERROR")
    ∧ ((analyze_notice sampleProfile (.parseFail "乱码") "" "" goodText
          locFields).result.decision_state = some "REVIEW"
      ∧ (analyze_notice sampleProfile (.parseFail "乱码") "" "" goodText
          locFields).result.meta.decision_source = some "LLM_PARSE_ERROR")) :=
  ⟨⟨by decide, by decide⟩,
   C8_llm_failure_fallbacks sampleProfile "" "" goodText locFields "超时" "乱码"
     (by decide) (by decide)⟩

/-- C9: in the crawl pipeline step, an item whose canonical key has a
stored record hashing to the same digest as the newly extracted text is
skipped entirely: the store (including the persisted analysis) is
returned unchanged, analyze_notice is not invoked and save_notice is not
invoked. -/
theorem C9_unchanged_skip (hash : String → String) (p : Profile) (llm : LLMStage)
    (analyze : Bool) (now : String) (store : Store) (n : CrawlItem) (ex : Notice)
    (hraw : strTruthy n.raw_text = true)
    (hkey : strTruthy n.canonical_key = true)
    (hex : get_notice_by_canonical_key store n.canonical_key = some ex)
    (hhash : hash (ex.raw_text.getD "") = hash n.raw_text) :
    processNotice hash p llm analyze true now store n = (store, ⟨true, false, false⟩) := by
  unfold processNotice
  rw [hraw, hkey, hex]
  simp [hhash]

/-- C9 witness: re-crawling the stored notice with identical text under
the identity digest leaves the one-row store untouched. -/
theorem C9_unchanged_skip_witness :
    (strTruthy unchangedItem.raw_text = true
      ∧ strTruthy unchangedItem.canonical_key = true
      ∧ get_notice_by_canonical_key [storedNotice] unchangedItem.canonical_key
          = some storedNotice
      ∧ (fun s => s) (storedNotice.raw_text.getD "")
          = (fun s => s) unchangedItem.raw_text)
    ∧ processNotice (fun s => s) sampleProfile (.callError "x") true true "t1"
        [storedNotice] unchangedItem = ([storedNotice], ⟨true, false, false⟩) :=
  ⟨⟨by decide, by decide, by decide, by decide⟩,
   C9_unchanged_skip (fun s => s) sampleProfile (.callError "x") true "t1"
     [storedNotice] unchangedItem storedNotice (by decide) (by decide) (by decide)
     (by decide)⟩

/-- C10: updating an existing canonical key through save_notice always
overwrites title, url, source_item_id and raw_text, while a None
published_at leaves the stored published_at and a None analysis_json
leaves the stored analysis_json. -/
theorem C10_save_notice_update (store : Store) (title key : String)
    (url sid : Option String) (rt : String) (pa : Option String)
    (aj : Option Decision) (now : String) (old : Notice)
    (hold : get_notice_by_canonical_key store key = some old) :
    get_notice_by_canonical_key
        (save_notice store title key url sid rt pa aj now) key
      = some { old with
               title := title
               url := url
               source_item_id := sid
               raw_text := some rt
               published_at := (match pa with
                 | some x => some x
                 | none => old.published_at)
               analysis_json := (match aj with
                 | some a => some a
                 | none => old.analysis_json)
               updated_at := some now } := by
  have hold2 : List.find? (fun m : Notice => m.canonical_key == key) store
      = some old := hold
  have hp : (old.canonical_key == key) = true :=
    List.find?_some (p := fun (m : Notice) => m.canonical_key == key) hold2
  unfold save_notice
  rw [hold]
  dsimp only
  exact find_after_replace store key _ hp old hold

/-- C10 witness: saving over the stored notice with both optional
arguments absent keeps its published_at and analysis_json while the
other columns take the new values. -/
theorem C10_save_notice_update_witness :
    get_notice_by_canonical_key [storedNotice] "source:id1" = some storedNotice
      ∧ get_notice_by_canonical_key
          (save_notice [storedNotice] "新标题" "source:id1" (some "https://new")
            (some "id1") "新正文" none none "t2") "source:id1"
        = some { storedNotice with
                 title := "新标题"
                 url := some "https://new"
                 source_item_id := some "id1"
                 raw_text := some "新正文"
                 published_at := (match (none : Option String) with
                   | some x => some x
                   | none => storedNotice.published_at)
                 analysis_json := (match (none : Option Decision) with
                   | some a => some a
                   | none => storedNotice.analysis_json)
                 updated_at := some "t2" } :=
  ⟨by decide,
   C10_save_notice_update [storedNotice] "新标题" "source:id1" (some "https://new")
     (some "id1") "新正文" none none "t2" storedNotice (by decide)⟩
